import Mathlib

/-!
A shallow embedding of the session-orchestration server (`src/server.js`):
workspace materialization, the pubspec scaffold step, the port allocator and
backend-container registry, the eviction timer, the SIGINT sweep, and the
backend proxy route.  Paths are modelled as lists of segments; Node's
`path.join` normalization (resolving `.` and `..`) is modelled explicitly.
-/

namespace EditorBe

/-- JS `filePath.replace(/^\/+/, '')`: strip all leading slashes. -/
def stripLeadingSlashes (s : String) : String :=
  String.mk (s.data.dropWhile (fun c => c = '/'))

/-- Split a character list at slashes (groups between slashes, possibly empty). -/
def splitOnSlash : List Char → List (List Char)
  | [] => [[]]
  | c :: rest =>
    if c = '/' then [] :: splitOnSlash rest
    else
      match splitOnSlash rest with
      | [] => [[c]]
      | g :: gs => (c :: g) :: gs

/-- Split a path string into its non-empty segments (slashes collapse). -/
def splitSegs (s : String) : List String :=
  ((splitOnSlash s.data).map String.mk).filter (fun x => x ≠ "")

/-- Node `path.join` / `path.normalize` segment resolution: `.` is dropped,
`..` pops the last accumulated segment (clamping at the filesystem root,
as for an absolute base path). -/
def normSegs : List String → List String → List String
  | acc, [] => acc
  | acc, s :: rest =>
    if s = "." then normSegs acc rest
    else if s = ".." then normSegs acc.dropLast rest
    else normSegs (acc ++ [s]) rest

/-- `path.join(base, rel)` for an absolute, already-normalized `base`. -/
def pathJoin (base : List String) (rel : String) : List String :=
  normSegs base (splitSegs rel)

/-- The file-write loop shared by `/compile` (lines 90-103) and
`/compile-backend` (lines 235-240): for each `[filePath, content]` entry,
strip leading slashes, `path.join` with the project dir, and write.  The
source performs no traversal check whatsoever: every entry produces a write. -/
def materializeWrites (projectDir : List String) (files : List (String × String)) :
    List (List String × String) :=
  files.map (fun fc => (pathJoin projectDir (stripLeadingSlashes fc.1), fc.2))

/-- A resolved path stays inside the workspace root. -/
def insideRoot (root p : List String) : Bool :=
  List.isPrefixOf root p

/-- JS object lookup `m[k]` (keys are unique in an object literal):
`undefined` becomes `none`. -/
def jsGet {α : Type} : List (String × α) → String → Option α
  | [], _ => none
  | e :: m, k => if e.1 = k then some e.2 else jsGet m k

/-- JS truthiness of `m[k]` for a string-valued map: `undefined` and the
empty string are falsy. -/
def jsTruthy : Option String → Bool
  | none => false
  | some s => s != ""

/-- The `PUBSPEC_YAML` template literal (lines 37-48). -/
def PUBSPEC_YAML : String :=
  "\nname: flutter_preview\ndescription: A temporary Flutter project for preview.\nversion: 1.0.0\nenvironment:\n  sdk: \x27>=2.12.0 <3.0.0\x27\ndependencies:\n  flutter:\n    sdk: flutter\nflutter:\n  uses-material-design: true\n"

/-- JS `String.prototype.trim`: strip whitespace from both ends. -/
def jsTrim (s : String) : String :=
  String.mk (((s.data.dropWhile Char.isWhitespace).reverse.dropWhile Char.isWhitespace).reverse)

/-- The scaffold actually written is `PUBSPEC_YAML.trim()` (line 107). -/
def PUBSPEC_SCAFFOLD : String := jsTrim PUBSPEC_YAML

/-- The `DEFAULT_INDEX_HTML` literal (lines 117-129). -/
def DEFAULT_INDEX_HTML : String :=
  "<!DOCTYPE html>\n<html>\n<head>\n  <meta charset=\"UTF-8\">\n  <title>Flutter Web</title>\n  <meta name=\"description\" content=\"A new Flutter project.\">\n  <meta name=\"viewport\" content=\"width=device-width, initial-scale=1.0\">\n  <link rel=\"manifest\" href=\"manifest.json\">\n</head>\n<body>\n  <script src=\"main.dart.js\"></script>\n</body>\n</html>"

/-- Line 106: the scaffold is written when `!files['/pubspec.yaml']`,
i.e. when that exact key is absent or maps to a falsy (empty) string. -/
def scaffoldWritten (files : List (String × String)) : Bool :=
  ! jsTruthy (jsGet files "/pubspec.yaml")

/-- The full ordered write sequence of `/compile` before the build is
spawned (lines 90-138): the user file loop, then the conditional pubspec
scaffold, then `web/index.html` if no file exists there yet. -/
def compileWrites (projectDir : List String) (files : List (String × String)) :
    List (List String × String) :=
  let userWrites := materializeWrites projectDir files
  let w2 := userWrites ++
    (if scaffoldWritten files then [(pathJoin projectDir "pubspec.yaml", PUBSPEC_SCAFFOLD)] else [])
  w2 ++
    (if (w2.map Prod.fst).contains (pathJoin projectDir "web/index.html") then []
     else [(pathJoin projectDir "web/index.html", DEFAULT_INDEX_HTML)])

/-- Content a path holds after a sequence of writes (the last write wins:
a later write overrides every earlier one at the same path). -/
def finalContent : List (List String × String) → List String → Option String
  | [], _ => none
  | w :: rest, p =>
    match finalContent rest p with
    | some v => some v
    | none => if w.1 = p then some w.2 else none

/-- An HTTP response as assembled by the route handlers. -/
structure HttpResponse where
  status : Nat
  errorMsg : String
  details : String
deriving DecidableEq, Repr

/-- Observable effects of the `dockerProcess.on('close')` handler. -/
inductive CloseEffect where
  | renameBuildWebToPreview
  | removeProjectDir
  | removePreviewDir
  | armPreviewCleanupTimer
  | respond (r : HttpResponse)
deriving DecidableEq, Repr

/-- The `dockerProcess.on('close')` handler of `/compile` (lines 178-211).
`code ≠ 0`: respond 500 with `details: dockerError || errorMessage` and do
nothing else (no filesystem cleanup in this branch).  `code = 0`: rename
the build output, remove the project dir, arm the preview cleanup timer and
respond with the preview URL; if the rename/post-processing fails, remove
both directories and respond 500. -/
def dockerOnClose (code : Int) (dockerError : String) (renameOk : Bool)
    (projectId renameErrMsg : String) : List CloseEffect :=
  if code ≠ 0 then
    [.respond ⟨500, "Failed to compile Flutter code",
      if dockerError != "" then dockerError
      else "Docker process exited with code " ++ toString code⟩]
  else if renameOk then
    [.renameBuildWebToPreview, .removeProjectDir, .armPreviewCleanupTimer,
     .respond ⟨200, "", "http://localhost:3000/previews/" ++ projectId ++ "/index.html"⟩]
  else
    [.removeProjectDir, .removePreviewDir,
     .respond ⟨500, "Failed to process compiled output", renameErrMsg⟩]

/-- Value stored in `backendContainers[projectId]` (line 282); the timer
handle is not modelled beyond its scheduled action. -/
structure BackendInfo where
  port : Nat
  containerName : String
deriving DecidableEq, Repr

/-- Action performed by the eviction timer callback. -/
inductive EvictAction where
  | dockerStop (name : String)
deriving DecidableEq, Repr

/-- The eviction `setTimeout` callback (lines 273-280): it runs
`docker stop <containerName>` (errors caught and logged) and touches
nothing else — in particular it never deletes the `backendContainers`
entry, so the registry is returned unchanged. -/
def evictionFire (backendContainers : List (String × BackendInfo))
    (containerName : String) : List (String × BackendInfo) × List EvictAction :=
  (backendContainers, [.dockerStop containerName])

/-- Actions of the SIGINT handler (lines 318-332). -/
inductive ShutdownAction where
  | clearEvictionTimer (projectId : String)
  | stopContainer (name : String)
  | killLogFollower (name : String)
  | processExit
deriving DecidableEq, Repr

/-- The `for (const projectId in backendContainers)` sweep of the SIGINT
handler: for every registry entry, clear its timer, `docker stop` its
container and kill its log follower. -/
def sigintSweepBody (backendContainers : List (String × BackendInfo)) :
    List ShutdownAction :=
  List.flatten (backendContainers.map (fun e =>
    [ShutdownAction.clearEvictionTimer e.1,
     ShutdownAction.stopContainer e.2.containerName,
     ShutdownAction.killLogFollower e.2.containerName]))

/-- The SIGINT handler: the total sweep over the registry followed by
`process.exit()`. -/
def sigintHandler (backendContainers : List (String × BackendInfo)) :
    List ShutdownAction :=
  sigintSweepBody backendContainers ++ [ShutdownAction.processExit]

/-- The advertised `apiUrl` of `/compile-backend` (line 284), which is also
the mount path of the proxy route (line 299). -/
def apiBasePath (projectId : String) : String :=
  "/previews/backend/" ++ projectId ++ "/api"

/-- Outcome of the backend proxy route. -/
inductive ProxyResult where
  | notFound
  | forward (port : Nat) (targetPath : String)
deriving DecidableEq, Repr

/-- JS `s.startsWith(p)`. -/
def jsStartsWith (s p : String) : Bool := List.isPrefixOf p.data s.data

/-- JS `s.slice(n)` for a non-negative index. -/
def jsSliceFrom (s : String) (n : Nat) : String := String.mk (s.data.drop n)

/-- JS `s.length` (code-unit count; code points suffice for these paths). -/
def jsLength (s : String) : Nat := s.data.length

/-- The backend proxy route (lines 299-316): missing registry entry gives a
404 and no forwarding; otherwise the request is forwarded to the stored
port with the path rewritten to `/api` plus the part of the original URL
after the session prefix. -/
def backendProxy (backendContainers : List (String × BackendInfo))
    (projectId : String) (originalUrl : String) : ProxyResult :=
  match jsGet backendContainers projectId with
  | none => .notFound
  | some info =>
    let base := apiBasePath projectId
    let restOfPath :=
      if jsStartsWith originalUrl base then jsSliceFrom originalUrl (jsLength base) else ""
    .forward info.port ("/api" ++ restOfPath)

/-- The mutable top-level state: `nextPort` (line 51) and
`backendContainers` (line 50). -/
structure ServerState where
  nextPort : Nat
  backendContainers : List (String × BackendInfo)
deriving DecidableEq, Repr

/-- Startup state: `let nextPort = 35001` and an empty registry. -/
def initialState : ServerState := ⟨35001, []⟩

/-- The state-mutating events of one process lifetime: a successful
`/compile-backend` request (allocates `portToUse = nextPort++` and
registers the session), a failed one (the port was already allocated
before the failure; nothing is registered), and an eviction-timer firing. -/
inductive Op where
  | backendOk (projectId containerName : String)
  | backendFail (projectId containerName : String)
  | evictFire (containerName : String)
deriving DecidableEq, Repr

/-- Effect of one event on the shared state, following the source: both
`/compile-backend` paths execute `nextPort++`; only the success path stores
`backendContainers[projectId] = { port: portToUse, containerName, timer }`;
eviction leaves the registry untouched. -/
def applyOp (s : ServerState) : Op → ServerState
  | .backendOk projectId containerName =>
      ⟨s.nextPort + 1, (projectId, ⟨s.nextPort, containerName⟩) :: s.backendContainers⟩
  | .backendFail _ _ => ⟨s.nextPort + 1, s.backendContainers⟩
  | .evictFire containerName => ⟨s.nextPort, (evictionFire s.backendContainers containerName).1⟩

/-- The ports handed out by `nextPort++` along a run, starting from `s`. -/
def allocationsFrom (s : ServerState) : List Op → List Nat
  | [] => []
  | op :: rest =>
    match op with
    | .evictFire _ => allocationsFrom (applyOp s op) rest
    | _ => s.nextPort :: allocationsFrom (applyOp s op) rest

/-- State after a sequence of events from startup. -/
def runOps (ops : List Op) : ServerState := ops.foldl applyOp initialState

/-- Ports handed out along a whole run from startup. -/
def allocations (ops : List Op) : List Nat := allocationsFrom initialState ops

/-- The ordered observable steps of a successful `/compile-backend` request
(lines 227-285): workspace creation and writes, image build, container
start, log follower, eviction timer, registry store (line 282), and only
then the response advertising the endpoint (lines 284-285). -/
inductive BackendStep where
  | mkdirProject
  | writeFiles
  | dockerBuildImage
  | dockerRunContainer
  | spawnLogFollower
  | armEvictionTimer
  | register (projectId : String) (info : BackendInfo)
  | respondApiUrl (url : String)
deriving DecidableEq, Repr

/-- Success trace of `/compile-backend` for a given session and port. -/
def compileBackendTrace (projectId : String) (portToUse : Nat) : List BackendStep :=
  [.mkdirProject, .writeFiles, .dockerBuildImage, .dockerRunContainer, .spawnLogFollower,
   .armEvictionTimer, .register projectId ⟨portToUse, "backend-" ++ projectId⟩,
   .respondApiUrl (apiBasePath projectId)]

end EditorBe

namespace EditorBe

/-- C1: the spec requires that a file map containing traversal segments that
resolve outside the session workspace be rejected with `InvalidInput` before
any write.  The code has no such check: for the file map
`{"../evil.txt": "x"}` the write loop performs exactly one write, and that
write's resolved path lies outside the workspace root
(`temp/<id>/../evil.txt` resolves to `temp/evil.txt`). -/
theorem c1_traversal_is_written_outside_root :
    materializeWrites ["srv", "temp", "session1"] [("../evil.txt", "x")] =
      [(["srv", "temp", "evil.txt"], "x")] ∧
    (materializeWrites ["srv", "temp", "session1"] [("../evil.txt", "x")]).length = 1 ∧
    insideRoot ["srv", "temp", "session1"] ["srv", "temp", "evil.txt"] = false := by
  refine ⟨?_, ?_, ?_⟩ <;> decide

theorem string_data_append (a b : String) : (a ++ b).data = a.data ++ b.data := by
  cases a; cases b; rfl

theorem string_mk_data (s : String) : String.mk s.data = s := by
  cases s; rfl

theorem isPrefixOf_append_self (l t : List Char) : List.isPrefixOf l (l ++ t) = true := by
  induction l with
  | nil => simp [List.isPrefixOf]
  | cons c l ih => simp [List.isPrefixOf, ih]

/-- C7: a request for a sessionId that the registry does not know answers
`NotFound` (404) and forwards nothing to any backend. -/
theorem c7_unknown_session_not_found
    (backendContainers : List (String × BackendInfo)) (projectId url : String)
    (h : jsGet backendContainers projectId = none) :
    backendProxy backendContainers projectId url = ProxyResult.notFound := by
  unfold backendProxy
  rw [h]

theorem c7_unknown_session_not_found_witness :
    jsGet ([] : List (String × BackendInfo)) "nosuch" = none ∧
    backendProxy [] "nosuch" "/previews/backend/nosuch/api/widgets" = ProxyResult.notFound :=
  ⟨rfl, c7_unknown_session_not_found [] "nosuch" "/previews/backend/nosuch/api/widgets" rfl⟩

/-- C6: for a registered session and any sub-path, a request addressed to
`apiBasePath ++ sub` is forwarded to the registered port with the path
rewritten to `/api ++ sub`. -/
theorem c6_proxy_rewrites_subpath
    (backendContainers : List (String × BackendInfo)) (projectId sub : String)
    (info : BackendInfo) (h : jsGet backendContainers projectId = some info) :
    backendProxy backendContainers projectId (apiBasePath projectId ++ sub) =
      ProxyResult.forward info.port ("/api" ++ sub) := by
  have hstart : jsStartsWith (apiBasePath projectId ++ sub) (apiBasePath projectId) = true := by
    unfold jsStartsWith
    rw [string_data_append]
    exact isPrefixOf_append_self _ _
  have hslice :
      jsSliceFrom (apiBasePath projectId ++ sub) (jsLength (apiBasePath projectId)) = sub := by
    unfold jsSliceFrom jsLength
    rw [string_data_append, List.drop_left, string_mk_data]
  simp [backendProxy, h, hstart, hslice]

theorem c6_proxy_rewrites_subpath_witness :
    jsGet [("p1", BackendInfo.mk 35001 "backend-p1")] "p1" =
      some (BackendInfo.mk 35001 "backend-p1") ∧
    backendProxy [("p1", BackendInfo.mk 35001 "backend-p1")] "p1"
        (apiBasePath "p1" ++ "/widgets") =
      ProxyResult.forward 35001 "/api/widgets" := by
  refine ⟨rfl, ?_⟩
  have h := c6_proxy_rewrites_subpath [("p1", BackendInfo.mk 35001 "backend-p1")]
    "p1" "/widgets" (BackendInfo.mk 35001 "backend-p1") rfl
  rw [h]
  decide

/-- C8: the SIGINT handler sweeps the whole registry: every registered
session has its eviction timer cleared and its container stopped in the
sweep body, and `process.exit()` runs only after the sweep body. -/
theorem c8_shutdown_stops_all_sessions
    (backendContainers : List (String × BackendInfo)) (projectId : String)
    (info : BackendInfo) (h : (projectId, info) ∈ backendContainers) :
    ShutdownAction.clearEvictionTimer projectId ∈ sigintSweepBody backendContainers ∧
    ShutdownAction.stopContainer info.containerName ∈ sigintSweepBody backendContainers ∧
    sigintHandler backendContainers =
      sigintSweepBody backendContainers ++ [ShutdownAction.processExit] := by
  refine ⟨?_, ?_, rfl⟩
  · exact List.mem_flatten.mpr ⟨_, List.mem_map_of_mem _ h, by simp⟩
  · exact List.mem_flatten.mpr ⟨_, List.mem_map_of_mem _ h, by simp⟩

theorem c8_shutdown_stops_all_sessions_witness :
    (("p2", BackendInfo.mk 35002 "backend-p2") ∈
      [("p1", BackendInfo.mk 35001 "backend-p1"), ("p2", BackendInfo.mk 35002 "backend-p2")]) ∧
    ShutdownAction.stopContainer "backend-p2" ∈
      sigintSweepBody
        [("p1", BackendInfo.mk 35001 "backend-p1"), ("p2", BackendInfo.mk 35002 "backend-p2")] :=
  ⟨by simp,
   (c8_shutdown_stops_all_sessions
     [("p1", BackendInfo.mk 35001 "backend-p1"), ("p2", BackendInfo.mk 35002 "backend-p2")]
     "p2" (BackendInfo.mk 35002 "backend-p2") (by simp)).2.1⟩

/-- C9: after a successful `/compile-backend`, the registry entry stores
the allocated port under the sessionId (so a lookup at response time
succeeds), and in the request's observable step sequence the registry
store strictly precedes the response advertising the endpoint. -/
theorem c9_register_precedes_advertise (s : ServerState) (projectId containerName : String) :
    jsGet (applyOp s (Op.backendOk projectId containerName)).backendContainers projectId =
      some (BackendInfo.mk s.nextPort containerName) ∧
    ∃ i j : Nat, i < j ∧
      (compileBackendTrace projectId s.nextPort)[i]? =
        some (BackendStep.register projectId (BackendInfo.mk s.nextPort ("backend-" ++ projectId))) ∧
      (compileBackendTrace projectId s.nextPort)[j]? =
        some (BackendStep.respondApiUrl (apiBasePath projectId)) := by
  constructor
  · show jsGet ((projectId, BackendInfo.mk s.nextPort containerName) :: s.backendContainers)
      projectId = _
    unfold jsGet
    rw [if_pos rfl]
  · exact ⟨6, 7, by decide, rfl, rfl⟩

/-- C2 counterexample: for exit code 1 with accumulated stderr, the close
handler only responds 500 with the stderr text; it performs no removal of
the project (workspace) directory, contrary to the claim that the
workspace is reclaimed as part of handling the failure. -/
theorem c2_counterexample_failure_branch_keeps_workspace :
    dockerOnClose 1 "Error: compilation failed\n" true "p1" "" =
      [CloseEffect.respond
        (HttpResponse.mk 500 "Failed to compile Flutter code" "Error: compilation failed\n")] ∧
    CloseEffect.removeProjectDir ∉ dockerOnClose 1 "Error: compilation failed\n" true "p1" "" := by
  refine ⟨?_, ?_⟩ <;> decide

/-- C2 (amended): a non-zero exit is surfaced as a 500 response carrying
the accumulated stderr text, but the failure branch performs no filesystem
reclamation at all: neither the workspace directory nor any partial
artifact is deleted there. -/
theorem c2_amended_failure_surfaced_without_reclamation
    (code : Int) (dockerError : String) (renameOk : Bool) (projectId renameErrMsg : String)
    (hc : code ≠ 0) (he : dockerError ≠ "") :
    dockerOnClose code dockerError renameOk projectId renameErrMsg =
      [CloseEffect.respond (HttpResponse.mk 500 "Failed to compile Flutter code" dockerError)] ∧
    CloseEffect.removeProjectDir ∉ dockerOnClose code dockerError renameOk projectId renameErrMsg := by
  have hb : (dockerError != "") = true := bne_iff_ne.mpr he
  constructor
  · unfold dockerOnClose
    rw [if_pos hc, hb]
    simp
  · intro hmem
    unfold dockerOnClose at hmem
    rw [if_pos hc, hb] at hmem
    simp at hmem

theorem c2_amended_witness :
    (1 : Int) ≠ 0 ∧ "boom\n" ≠ "" ∧
    dockerOnClose 1 "boom\n" false "p9" "oops" =
      [CloseEffect.respond (HttpResponse.mk 500 "Failed to compile Flutter code" "boom\n")] :=
  ⟨by decide, by decide,
   (c2_amended_failure_surfaced_without_reclamation 1 "boom\n" false "p9" "oops"
     (by decide) (by decide)).1⟩

/-- C3 counterexample: after the eviction timer fires for the session
`"p1"`, a registry lookup for `"p1"` still returns the endpoint — the
entry is never removed — contrary to the claim that lookup returns
`NotFound` after eviction. -/
theorem c3_counterexample_lookup_after_eviction :
    (evictionFire [("p1", BackendInfo.mk 35001 "backend-p1")] "backend-p1").1 =
      [("p1", BackendInfo.mk 35001 "backend-p1")] ∧
    jsGet (evictionFire [("p1", BackendInfo.mk 35001 "backend-p1")] "backend-p1").1 "p1" =
      some (BackendInfo.mk 35001 "backend-p1") :=
  ⟨rfl, rfl⟩

/-- C3 (amended): when the eviction timer fires for a registered session,
exactly one `docker stop` of its container is issued by that firing (a
repeated trigger would issue another stop whose failure is caught), but
the registry entry is left in place: a subsequent lookup still returns the
session's endpoint rather than `NotFound`. -/
theorem c3_amended_eviction_stops_but_entry_remains
    (backendContainers : List (String × BackendInfo)) (projectId : String)
    (info : BackendInfo) (h : jsGet backendContainers projectId = some info) :
    (evictionFire backendContainers info.containerName).1 = backendContainers ∧
    jsGet (evictionFire backendContainers info.containerName).1 projectId = some info ∧
    (evictionFire backendContainers info.containerName).2 =
      [EvictAction.dockerStop info.containerName] :=
  ⟨rfl, h, rfl⟩

theorem c3_amended_witness :
    jsGet [("p1", BackendInfo.mk 35001 "backend-p1")] "p1" =
      some (BackendInfo.mk 35001 "backend-p1") ∧
    jsGet (evictionFire [("p1", BackendInfo.mk 35001 "backend-p1")] "backend-p1").1 "p1" =
      some (BackendInfo.mk 35001 "backend-p1") :=
  ⟨rfl,
   (c3_amended_eviction_stops_but_entry_remains [("p1", BackendInfo.mk 35001 "backend-p1")]
     "p1" (BackendInfo.mk 35001 "backend-p1") rfl).2.1⟩

theorem applyOp_ports_bounded (s : ServerState) (op : Op)
    (h : ∀ e ∈ s.backendContainers, e.2.port < s.nextPort) :
    ∀ e ∈ (applyOp s op).backendContainers, e.2.port < (applyOp s op).nextPort := by
  cases op with
  | backendOk projectId containerName =>
    intro e he
    rcases List.mem_cons.mp he with rfl | he
    · exact Nat.lt_succ_self _
    · exact Nat.lt_succ_of_lt (h e he)
  | backendFail projectId containerName =>
    intro e he
    exact Nat.lt_succ_of_lt (h e he)
  | evictFire containerName =>
    intro e he
    exact h e he

theorem foldl_ports_bounded (ops : List Op) :
    ∀ s : ServerState, (∀ e ∈ s.backendContainers, e.2.port < s.nextPort) →
      ∀ e ∈ (ops.foldl applyOp s).backendContainers, e.2.port < (ops.foldl applyOp s).nextPort := by
  induction ops with
  | nil => intro s hs; exact hs
  | cons op rest ih =>
    intro s hs
    exact ih (applyOp s op) (applyOp_ports_bounded s op hs)

theorem applyOp_nextPort_le (s : ServerState) (op : Op) :
    s.nextPort ≤ (applyOp s op).nextPort := by
  cases op with
  | backendOk projectId containerName => exact Nat.le_succ _
  | backendFail projectId containerName => exact Nat.le_succ _
  | evictFire containerName => exact Nat.le_refl _

theorem allocationsFrom_lower_bound (ops : List Op) :
    ∀ s : ServerState, ∀ x ∈ allocationsFrom s ops, s.nextPort ≤ x := by
  induction ops with
  | nil => intro s x hx; simp [allocationsFrom] at hx
  | cons op rest ih =>
    intro s x hx
    cases op with
    | backendOk projectId containerName =>
      rcases List.mem_cons.mp hx with rfl | hx
      · exact Nat.le_refl _
      · exact Nat.le_trans (Nat.le_succ _) (ih _ x hx)
    | backendFail projectId containerName =>
      rcases List.mem_cons.mp hx with rfl | hx
      · exact Nat.le_refl _
      · exact Nat.le_trans (Nat.le_succ _) (ih _ x hx)
    | evictFire containerName =>
      exact ih _ x hx

theorem allocationsFrom_pairwise_lt (ops : List Op) :
    ∀ s : ServerState, List.Pairwise (· < ·) (allocationsFrom s ops) := by
  induction ops with
  | nil => intro s; simp [allocationsFrom]
  | cons op rest ih =>
    intro s
    cases op with
    | backendOk projectId containerName =>
      refine List.pairwise_cons.mpr ⟨?_, ih _⟩
      intro x hx
      exact Nat.lt_of_succ_le (allocationsFrom_lower_bound rest _ x hx)
    | backendFail projectId containerName =>
      refine List.pairwise_cons.mpr ⟨?_, ih _⟩
      intro x hx
      exact Nat.lt_of_succ_le (allocationsFrom_lower_bound rest _ x hx)
    | evictFire containerName =>
      exact ih _

/-- C5: along any sequence of events from startup, the ports handed out by
`nextPort++` are strictly increasing (hence pairwise distinct), and every
port stored in the registry is below the counter, so the next allocation
can never return a port currently held by a registered session. -/
theorem c5_allocations_monotonic_and_fresh (ops : List Op) :
    List.Pairwise (· < ·) (allocations ops) ∧
    List.Pairwise (· ≠ ·) (allocations ops) ∧
    ∀ e ∈ (runOps ops).backendContainers, e.2.port ≠ (runOps ops).nextPort := by
  refine ⟨allocationsFrom_pairwise_lt ops initialState,
    (allocationsFrom_pairwise_lt ops initialState).imp (fun h => Nat.ne_of_lt h), ?_⟩
  intro e he
  exact Nat.ne_of_lt (foldl_ports_bounded ops initialState (by intro e he; simp [initialState] at he) e he)

theorem c5_allocations_monotonic_and_fresh_witness :
    (("p1", BackendInfo.mk 35001 "backend-p1") ∈
      (runOps [Op.backendOk "p1" "backend-p1"]).backendContainers) ∧
    (BackendInfo.mk 35001 "backend-p1").port ≠
      (runOps [Op.backendOk "p1" "backend-p1"]).nextPort :=
  ⟨by decide,
   (c5_allocations_monotonic_and_fresh [Op.backendOk "p1" "backend-p1"]).2.2
     ("p1", BackendInfo.mk 35001 "backend-p1") (by decide)⟩

theorem pathJoin_pubspec (base : List String) :
    pathJoin base "pubspec.yaml" = base ++ ["pubspec.yaml"] := by
  have h : splitSegs "pubspec.yaml" = ["pubspec.yaml"] := by decide
  simp [pathJoin, h, normSegs]

theorem pathJoin_webIndex (base : List String) :
    pathJoin base "web/index.html" = base ++ ["web", "index.html"] := by
  have h : splitSegs "web/index.html" = ["web", "index.html"] := by decide
  simp [pathJoin, h, normSegs]

theorem jsGet_some {α : Type} (m : List (String × α)) (k : String) (v : α)
    (h : jsGet m k = some v) : ∃ e ∈ m, e.1 = k ∧ e.2 = v := by
  induction m with
  | nil => exact Option.noConfusion h
  | cons a m ih =>
    unfold jsGet at h
    by_cases hk : a.1 = k
    · rw [if_pos hk] at h
      exact ⟨a, List.mem_cons_self a m, hk, Option.some.inj h⟩
    · rw [if_neg hk] at h
      obtain ⟨e, he, h1, h2⟩ := ih h
      exact ⟨e, List.mem_cons_of_mem a he, h1, h2⟩

theorem finalContent_append_single_eq (ws : List (List String × String)) (p : List String)
    (v : String) : finalContent (ws ++ [(p, v)]) p = some v := by
  induction ws with
  | nil => simp [finalContent]
  | cons w ws ih => simp [finalContent, ih]

theorem finalContent_append_single_ne (ws : List (List String × String)) (p q : List String)
    (v : String) (h : q ≠ p) : finalContent (ws ++ [(q, v)]) p = finalContent ws p := by
  induction ws with
  | nil => simp [finalContent, h]
  | cons w ws ih => simp [finalContent, ih]

theorem finalContent_some_mem (ws : List (List String × String)) (p : List String) (v : String)
    (h : finalContent ws p = some v) : ∃ e ∈ ws, e.1 = p ∧ e.2 = v := by
  induction ws with
  | nil => exact Option.noConfusion h
  | cons w ws ih =>
    unfold finalContent at h
    cases hf : finalContent ws p with
    | some u =>
      rw [hf] at h
      obtain rfl : u = v := Option.some.inj h
      obtain ⟨e, he, h1, h2⟩ := ih hf
      exact ⟨e, List.mem_cons_of_mem w he, h1, h2⟩
    | none =>
      rw [hf] at h
      by_cases hw : w.1 = p
      · rw [if_pos hw] at h
        exact ⟨w, List.mem_cons_self w ws, hw, Option.some.inj h⟩
      · rw [if_neg hw] at h
        exact Option.noConfusion h

theorem finalContent_ne_none_of_mem (ws : List (List String × String)) (p : List String)
    (e : List String × String) (he : e ∈ ws) (hep : e.1 = p) :
    finalContent ws p ≠ none := by
  induction ws with
  | nil => simp at he
  | cons w ws ih =>
    unfold finalContent
    cases hf : finalContent ws p with
    | some u => simp
    | none =>
      rcases List.mem_cons.mp he with rfl | he'
      · rw [if_pos hep]
        simp
      · exact absurd hf (ih he')

theorem finalContent_of_unique (ws : List (List String × String)) (p : List String) (c : String)
    (hex : ∃ e ∈ ws, e.1 = p) (hall : ∀ e ∈ ws, e.1 = p → e.2 = c) :
    finalContent ws p = some c := by
  cases hf : finalContent ws p with
  | none =>
    obtain ⟨e, he, hep⟩ := hex
    exact absurd hf (finalContent_ne_none_of_mem ws p e he hep)
  | some v =>
    obtain ⟨e, he, hep, hev⟩ := finalContent_some_mem ws p v hf
    have : v = c := by rw [← hev]; exact hall e he hep
    rw [this]

theorem webIndex_ne_pubspec (base : List String) :
    base ++ ["web", "index.html"] ≠ base ++ ["pubspec.yaml"] := by
  simp

/-- Decomposition of `compileWrites`: user writes, then the conditional
scaffold, then the conditional `web/index.html` write, with the joined
paths spelled out. -/
theorem compileWrites_eq (projectDir : List String) (files : List (String × String)) :
    compileWrites projectDir files =
      (materializeWrites projectDir files ++
        (if scaffoldWritten files then [(projectDir ++ ["pubspec.yaml"], PUBSPEC_SCAFFOLD)]
         else [])) ++
      (if ((materializeWrites projectDir files ++
            (if scaffoldWritten files then [(projectDir ++ ["pubspec.yaml"], PUBSPEC_SCAFFOLD)]
             else [])).map Prod.fst).contains (projectDir ++ ["web", "index.html"]) then []
       else [(projectDir ++ ["web", "index.html"], DEFAULT_INDEX_HTML)]) := by
  simp only [compileWrites, pathJoin_pubspec, pathJoin_webIndex]

/-- Appending the conditional `web/index.html` write never changes the
final content of `pubspec.yaml`. -/
theorem finalContent_webtail (ws : List (List String × String)) (projectDir : List String)
    (b : Bool) :
    finalContent
      (ws ++ (if b then [] else [(projectDir ++ ["web", "index.html"], DEFAULT_INDEX_HTML)]))
      (projectDir ++ ["pubspec.yaml"]) =
    finalContent ws (projectDir ++ ["pubspec.yaml"]) := by
  cases b with
  | true => rw [if_pos rfl, List.append_nil]
  | false =>
    rw [if_neg (by simp)]
    exact finalContent_append_single_ne _ _ _ _ (webIndex_ne_pubspec projectDir)

theorem scaffold_is_final (projectDir : List String) (files : List (String × String))
    (hsw : scaffoldWritten files = true) :
    finalContent (compileWrites projectDir files) (projectDir ++ ["pubspec.yaml"]) =
      some PUBSPEC_SCAFFOLD := by
  rw [compileWrites_eq, finalContent_webtail, hsw, if_pos rfl]
  exact finalContent_append_single_eq _ _ _

theorem custom_manifest_is_final (projectDir : List String) (files : List (String × String))
    (c : String) (hc : jsGet files "/pubspec.yaml" = some c) (hcne : c ≠ "")
    (huniq : ∀ e ∈ files,
      pathJoin projectDir (stripLeadingSlashes e.1) = projectDir ++ ["pubspec.yaml"] → e.2 = c) :
    finalContent (compileWrites projectDir files) (projectDir ++ ["pubspec.yaml"]) = some c := by
  have hsw : scaffoldWritten files = false := by
    simp [scaffoldWritten, jsTruthy, hc, hcne]
  have hex : ∃ w ∈ materializeWrites projectDir files,
      w.1 = projectDir ++ ["pubspec.yaml"] := by
    obtain ⟨e, hmem, hkey, hval⟩ := jsGet_some files "/pubspec.yaml" c hc
    refine ⟨(pathJoin projectDir (stripLeadingSlashes e.1), e.2),
      List.mem_map_of_mem _ hmem, ?_⟩
    rw [hkey, show stripLeadingSlashes "/pubspec.yaml" = "pubspec.yaml" from by decide,
      pathJoin_pubspec]
  have hall : ∀ w ∈ materializeWrites projectDir files,
      w.1 = projectDir ++ ["pubspec.yaml"] → w.2 = c := by
    intro w hw hwp
    obtain ⟨e, hmem, rfl⟩ := List.mem_map.mp hw
    exact huniq e hmem hwp
  rw [compileWrites_eq, finalContent_webtail, hsw, if_neg (by simp), List.append_nil]
  exact finalContent_of_unique _ _ _ hex hall

/-- C4 counterexample: the file map `{"/pubspec.yaml": ""}` contains the
manifest key, yet the scaffold check (JS truthiness) treats the empty
string as absent: the scaffold is substituted and ends up as the final
content of `pubspec.yaml`, so the custom manifest is not preserved
verbatim, refuting the claimed equivalence. -/
theorem c4_counterexample_empty_manifest_replaced :
    jsGet [("/pubspec.yaml", "")] "/pubspec.yaml" = some "" ∧
    scaffoldWritten [("/pubspec.yaml", "")] = true ∧
    finalContent (compileWrites ["tmp", "s1"] [("/pubspec.yaml", "")])
      ["tmp", "s1", "pubspec.yaml"] = some PUBSPEC_SCAFFOLD ∧
    PUBSPEC_SCAFFOLD ≠ "" := by
  refine ⟨rfl, rfl, rfl, by decide⟩

/-- C4 (amended): the scaffold is written if and only if the map's exact
key `/pubspec.yaml` is absent or bound to the empty string.  When the
scaffold is written, the synthesized default is the final `pubspec.yaml`
content before the build.  A map whose `/pubspec.yaml` entry is non-empty
— and which supplies no other key resolving to the manifest path — keeps
its custom manifest verbatim, with no scaffold substitution. -/
theorem c4_amended_scaffold_iff_no_nonempty_manifest (projectDir : List String)
    (files : List (String × String)) :
    (scaffoldWritten files = true ↔
      jsGet files "/pubspec.yaml" = none ∨ jsGet files "/pubspec.yaml" = some "") ∧
    (scaffoldWritten files = true →
      finalContent (compileWrites projectDir files) (projectDir ++ ["pubspec.yaml"]) =
        some PUBSPEC_SCAFFOLD) ∧
    (∀ c : String, jsGet files "/pubspec.yaml" = some c → c ≠ "" →
      (∀ e ∈ files,
        pathJoin projectDir (stripLeadingSlashes e.1) = projectDir ++ ["pubspec.yaml"] →
          e.2 = c) →
      scaffoldWritten files = false ∧
      finalContent (compileWrites projectDir files) (projectDir ++ ["pubspec.yaml"]) = some c) := by
  refine ⟨?_, fun hsw => scaffold_is_final projectDir files hsw, ?_⟩
  · cases hj : jsGet files "/pubspec.yaml" with
    | none => simp [scaffoldWritten, jsTruthy, hj]
    | some s => simp [scaffoldWritten, jsTruthy, hj]
  · intro c hc hcne huniq
    refine ⟨by simp [scaffoldWritten, jsTruthy, hc, hcne], ?_⟩
    exact custom_manifest_is_final projectDir files c hc hcne huniq

theorem c4_amended_witness :
    jsGet [("/pubspec.yaml", "custom: manifest"), ("/lib/main.dart", "void main() \x7b\x7d")]
      "/pubspec.yaml" = some "custom: manifest" ∧
    "custom: manifest" ≠ "" ∧
    scaffoldWritten [("/pubspec.yaml", "custom: manifest"), ("/lib/main.dart", "void main() \x7b\x7d")] =
      false ∧
    finalContent
      (compileWrites ["tmp", "s1"]
        [("/pubspec.yaml", "custom: manifest"), ("/lib/main.dart", "void main() \x7b\x7d")])
      ["tmp", "s1", "pubspec.yaml"] = some "custom: manifest" := by
  have h := (c4_amended_scaffold_iff_no_nonempty_manifest ["tmp", "s1"]
    [("/pubspec.yaml", "custom: manifest"), ("/lib/main.dart", "void main() \x7b\x7d")]).2.2
    "custom: manifest" rfl (by decide) (by decide)
  exact ⟨rfl, by decide, h.1, h.2⟩

/-- C10: a file map supplying the manifest under the slashless key
`pubspec.yaml` (and lacking the exact key `/pubspec.yaml`) has the custom
manifest written into the workspace first and the synthesized scaffold
written to the very same resolved path afterwards, which is then the final
content: the write-loop path normalization maps both key spellings to one
file while the scaffold check tests only the exact key `/pubspec.yaml`. -/
theorem c10_slashless_manifest_overwritten (projectDir : List String)
    (files : List (String × String)) (c : String)
    (hmem : ("pubspec.yaml", c) ∈ files)
    (habs : jsGet files "/pubspec.yaml" = none) :
    scaffoldWritten files = true ∧
    List.Sublist
      [(projectDir ++ ["pubspec.yaml"], c), (projectDir ++ ["pubspec.yaml"], PUBSPEC_SCAFFOLD)]
      (compileWrites projectDir files) ∧
    finalContent (compileWrites projectDir files) (projectDir ++ ["pubspec.yaml"]) =
      some PUBSPEC_SCAFFOLD := by
  have hsw : scaffoldWritten files = true := by simp [scaffoldWritten, jsTruthy, habs]
  refine ⟨hsw, ?_, scaffold_is_final projectDir files hsw⟩
  have hw : (projectDir ++ ["pubspec.yaml"], c) ∈ materializeWrites projectDir files := by
    have h : (pathJoin projectDir (stripLeadingSlashes "pubspec.yaml"), c) ∈
        materializeWrites projectDir files :=
      List.mem_map_of_mem (fun fc => (pathJoin projectDir (stripLeadingSlashes fc.1), fc.2)) hmem
    rwa [show stripLeadingSlashes "pubspec.yaml" = "pubspec.yaml" from by decide,
      pathJoin_pubspec] at h
  have h12 : List.Sublist
      [(projectDir ++ ["pubspec.yaml"], c), (projectDir ++ ["pubspec.yaml"], PUBSPEC_SCAFFOLD)]
      (materializeWrites projectDir files ++
        [(projectDir ++ ["pubspec.yaml"], PUBSPEC_SCAFFOLD)]) :=
    List.Sublist.append (List.singleton_sublist.mpr hw) (List.Sublist.refl _)
  rw [compileWrites_eq, hsw, if_pos rfl]
  exact h12.trans (List.sublist_append_left _ _)

theorem c10_slashless_manifest_overwritten_witness :
    (("pubspec.yaml", "custom: manifest") ∈
      [("pubspec.yaml", "custom: manifest"), ("/lib/main.dart", "code")]) ∧
    jsGet [("pubspec.yaml", "custom: manifest"), ("/lib/main.dart", "code")] "/pubspec.yaml" =
      none ∧
    finalContent
      (compileWrites ["tmp", "s2"]
        [("pubspec.yaml", "custom: manifest"), ("/lib/main.dart", "code")])
      ["tmp", "s2", "pubspec.yaml"] = some PUBSPEC_SCAFFOLD :=
  ⟨by decide, rfl,
   (c10_slashless_manifest_overwritten ["tmp", "s2"]
     [("pubspec.yaml", "custom: manifest"), ("/lib/main.dart", "code")] "custom: manifest"
     (by decide) rfl).2.2⟩

end EditorBe
